import Mathlib

/-!
Verification development for the card-centering analysis pipeline
(`card_centering.py` and `api_server.py`).

The Python source is shallowly embedded below.  Pure numeric functions
(`compute_border_thickness`, `compute_psa_axis_ratio`,
`compute_psa_centering_ratio_from_borders`, `map_psa_centering_grade`)
are translated directly, with Python floats modelled as rationals (ℚ).
The OpenCV stages (decoding, grayscale/blur/Canny, `findContours`,
`contourArea`, `arcLength`/`approxPolyDP`/`boundingRect`) are external
library calls, so an image is modelled by the data those external calls
yield: a list of contours, each carrying its area and the bounding
rectangle of its simplified polygon.  The repository's own control flow
around those calls (empty/short contour-list checks, max-area selection,
sort-descending and take-second selection, coordinate re-basing, the
result-dictionary assembly, and the HTTP handler's response assembly) is
embedded faithfully.  Python exceptions are modelled with `Except`.
-/

/-- An axis-aligned bounding rectangle `(x, y, w, h)` as returned by
`cv2.boundingRect` (integer pixel coordinates). -/
structure Rect where
  x : Int
  y : Int
  w : Int
  h : Int
deriving DecidableEq, Repr

/-- A contour as the repository's code observes it through OpenCV:
`area` is `cv2.contourArea(c)` and `bbox` is
`cv2.boundingRect(cv2.approxPolyDP(c, 0.02 * cv2.arcLength(c, True), True))`
(the external measurement/simplification chain collapsed to its result). -/
structure Contour where
  area : ℚ
  bbox : Rect
deriving DecidableEq, Repr

/-- A decoded raster image, abstracted by what the external OpenCV stages
produce from it: `borderContours` is the contour list that
`cv2.findContours` yields on the full edge map (RETR_EXTERNAL), and
`artworkContours outer` is the contour list it yields on the edge map of
the crop to `outer` (RETR_TREE). -/
structure Image where
  borderContours : List Contour
  artworkContours : Rect → List Contour

/-- The Python exception kinds raised by `card_centering.py`:
`ValueError` for detection failures, `FileNotFoundError` for an
unreadable image. -/
inductive CardError where
  | fileNotFoundError (msg : String)
  | valueError (msg : String)
deriving DecidableEq, Repr

/-- `max(contours, key=cv2.contourArea)`: Python's `max` keeps the first
element on ties and replaces only on a strictly larger key. -/
def maxByArea (c : Contour) (rest : List Contour) : Contour :=
  rest.foldl (fun best d => if best.area < d.area then d else best) c

/-- `detect_card_border` from `card_centering.py`: raise when no contours
were found, otherwise the bounding rectangle of the simplified
largest-area contour. -/
def detect_card_border (img : Image) : Except CardError Rect :=
  match img.borderContours with
  | [] => .error (.valueError "No contours found — cannot detect card border.")
  | c :: rest => .ok (maxByArea c rest).bbox

/-- Stable insertion keeping larger areas first; equal areas keep their
existing (earlier) elements ahead, matching Python's stable sort. -/
def insertByAreaDesc (c : Contour) : List Contour → List Contour
  | [] => [c]
  | d :: rest => if c.area ≤ d.area then d :: insertByAreaDesc c rest else c :: d :: rest

/-- `sorted(contours, key=cv2.contourArea, reverse=True)`: stable sort by
area, descending. -/
def sortByAreaDesc (l : List Contour) : List Contour :=
  l.foldl (fun acc c => insertByAreaDesc c acc) []

/-- `detect_artwork_rectangle` from `card_centering.py`: crop to the outer
box, raise when fewer than two contours are found, otherwise take the
second-largest contour's bounding rectangle and re-base it to full-image
coordinates. -/
def detect_artwork_rectangle (img : Image) (outer : Rect) : Except CardError Rect :=
  let contours := img.artworkContours outer
  if contours.length < 2 then
    .error (.valueError "Not enough contours to detect artwork.")
  else
    match sortByAreaDesc contours with
    | _ :: c :: _ =>
        .ok ⟨outer.x + c.bbox.x, outer.y + c.bbox.y, c.bbox.w, c.bbox.h⟩
    | _ =>
        -- unreachable: sorting preserves the length, which the guard bounds
        .error (.valueError "Not enough contours to detect artwork.")

/-- The `{left, right, top, bottom}` dictionary of `float` border
thicknesses. -/
structure Borders where
  left : ℚ
  right : ℚ
  top : ℚ
  bottom : ℚ
deriving DecidableEq, Repr

/-- `compute_border_thickness` from `card_centering.py`. -/
def compute_border_thickness (outer inner : Rect) : Borders :=
  let left := inner.x - outer.x
  let right := (outer.x + outer.w) - (inner.x + inner.w)
  let top := inner.y - outer.y
  let bottom := (outer.y + outer.h) - (inner.y + inner.h)
  { left := (left : ℚ), right := (right : ℚ), top := (top : ℚ), bottom := (bottom : ℚ) }

/-- `compute_psa_axis_ratio` from `card_centering.py`. -/
def compute_psa_axis_ratio (border_a border_b : ℚ) : ℚ :=
  let total := border_a + border_b
  if total ≤ 0 then 0
  else
    let worse := min border_a border_b
    let ratio := worse / total
    ratio * 100

/-- The `details` dictionary returned alongside the limiting ratio. -/
structure RatioDetails where
  horizontal_ratio_percent : ℚ
  vertical_ratio_percent : ℚ
  limiting_ratio_percent : ℚ
deriving DecidableEq, Repr

/-- `compute_psa_centering_ratio_from_borders` from `card_centering.py`. -/
def compute_psa_centering_ratio_from_borders (borders : Borders) : ℚ × RatioDetails :=
  let horizontal_ratio := compute_psa_axis_ratio borders.left borders.right
  let vertical_ratio := compute_psa_axis_ratio borders.top borders.bottom
  let limiting_ratio := min horizontal_ratio vertical_ratio
  (limiting_ratio,
   { horizontal_ratio_percent := horizontal_ratio
     vertical_ratio_percent := vertical_ratio
     limiting_ratio_percent := limiting_ratio })

/-- `map_psa_centering_grade` from `card_centering.py`: the ordered
threshold chain, first match wins, 4 as the default. -/
def map_psa_centering_grade (front_ratio back_ratio : ℚ) : ℕ :=
  if front_ratio ≥ 45 ∧ back_ratio ≥ 25 then 10
  else if front_ratio ≥ 40 ∧ back_ratio ≥ 20 then 9
  else if front_ratio ≥ 35 ∧ back_ratio ≥ 15 then 8
  else if front_ratio ≥ 30 ∧ back_ratio ≥ 10 then 7
  else if front_ratio ≥ 25 ∧ back_ratio ≥ 10 then 6
  else if front_ratio ≥ 20 then 5
  else 4

/-- The plain nested key/value data the orchestrator and the HTTP handler
assemble (Python dicts, tuples, numbers, strings, booleans and `None`). -/
inductive JValue where
  | num (q : ℚ)
  | nat (n : ℕ)
  | str (s : String)
  | bool (b : Bool)
  | null
  | rect (r : Rect)
  | obj (fields : List (String × JValue))

/-- Top-level keys of a dictionary value (empty for non-dictionaries). -/
def JValue.keys : JValue → List String
  | .obj fields => fields.map Prod.fst
  | _ => []

/-- Python `d[k]`-style lookup on a dictionary value. -/
def JValue.getKey (v : JValue) (k : String) : Option JValue :=
  match v with
  | .obj fields => fields.lookup k
  | _ => none

/-- Python `d.get(k)`: lookup defaulting to `None`. -/
def JValue.getD (v : JValue) (k : String) : JValue :=
  (v.getKey k).getD .null

/-- The `{left, right, top, bottom}` borders dictionary as placed in the
result structure. -/
def Borders.toJ (b : Borders) : JValue :=
  .obj [("left", .num b.left), ("right", .num b.right),
        ("top", .num b.top), ("bottom", .num b.bottom)]

/-- The `details` ratios dictionary as placed in the result structure. -/
def RatioDetails.toJ (d : RatioDetails) : JValue :=
  .obj [("horizontal_ratio_percent", .num d.horizontal_ratio_percent),
        ("vertical_ratio_percent", .num d.vertical_ratio_percent),
        ("limiting_ratio_percent", .num d.limiting_ratio_percent)]

/-- The `result` dictionary literal at the end of `analyze_centering` in
`card_centering.py`, as a function of the values in scope there. -/
def buildResult (front_outer front_inner : Rect) (front_borders : Borders)
    (front_ratio_details : RatioDetails) (front_center_ratio : ℚ)
    (back_outer back_inner : Rect) (back_borders : Borders)
    (back_ratio_details : RatioDetails) (back_center_ratio : ℚ)
    (centering_grade : ℕ) : JValue :=
  .obj
    [("front", .obj
        [("outer_border", .rect front_outer),
         ("artwork_rectangle", .rect front_inner),
         ("borders", front_borders.toJ),
         ("ratios", front_ratio_details.toJ),
         ("psa_centering_ratio", .num front_center_ratio)]),
     ("back", .obj
        [("outer_border", .rect back_outer),
         ("artwork_rectangle", .rect back_inner),
         ("borders", back_borders.toJ),
         ("ratios", back_ratio_details.toJ),
         ("psa_centering_ratio", .num back_center_ratio)]),
     ("summary", .obj
        [("frontCenteringRatio", .num front_center_ratio),
         ("backCenteringRatio", .num back_center_ratio),
         ("centeringGrade", .nat centering_grade)])]

/-- `analyze_centering` from `card_centering.py`.  `cv2.imread` returning
`None` is modelled by an `Option Image` input; every raised exception
propagates as `Except.error`, so a failure yields no partial result. -/
def analyze_centering (front_img back_img : Option Image) : Except CardError JValue :=
  match front_img with
  | none => .error (.fileNotFoundError "Could not read front image")
  | some fimg =>
    match detect_card_border fimg with
    | .error e => .error e
    | .ok front_outer =>
      match detect_artwork_rectangle fimg front_outer with
      | .error e => .error e
      | .ok front_inner =>
        let front_borders := compute_border_thickness front_outer front_inner
        -- Python tuple unpacking: front_center_ratio = .1, front_ratio_details = .2
        let front_psa := compute_psa_centering_ratio_from_borders front_borders
        match back_img with
        | none => .error (.fileNotFoundError "Could not read back image")
        | some bimg =>
          match detect_card_border bimg with
          | .error e => .error e
          | .ok back_outer =>
            match detect_artwork_rectangle bimg back_outer with
            | .error e => .error e
            | .ok back_inner =>
              let back_borders := compute_border_thickness back_outer back_inner
              let back_psa := compute_psa_centering_ratio_from_borders back_borders
              let centering_grade :=
                map_psa_centering_grade front_psa.1 back_psa.1
              .ok (buildResult front_outer front_inner front_borders
                     front_psa.2 front_psa.1
                     back_outer back_inner back_borders
                     back_psa.2 back_psa.1
                     centering_grade)

/-- The `analyze` POST handler from `api_server.py`, from the point where
both images have been downloaded: run `analyze_centering` (exceptions
propagate) and assemble the JSON response, reading `psa_grade`, `ratio`
and `centered` from the result with `.get`. -/
def analyze (card_id : String) (front_img back_img : Option Image) :
    Except CardError JValue :=
  match analyze_centering front_img back_img with
  | .error e => .error e
  | .ok result =>
      .ok (.obj
        [("success", .bool true),
         ("card_id", .str card_id),
         ("psa_grade", result.getD "psa_grade"),
         ("ratio", result.getD "ratio"),
         ("centered", result.getD "centered")])

/-- Modelled from the spec's rule table (§4.5): the ordered list of
`(grade, condition)` pairs, grades descending from 10 to 5. -/
def psaGradeRules : List (ℕ × (ℚ → ℚ → Bool)) :=
  [(10, fun f b => decide (f ≥ 45) && decide (b ≥ 25)),
   (9,  fun f b => decide (f ≥ 40) && decide (b ≥ 20)),
   (8,  fun f b => decide (f ≥ 35) && decide (b ≥ 15)),
   (7,  fun f b => decide (f ≥ 30) && decide (b ≥ 10)),
   (6,  fun f b => decide (f ≥ 25) && decide (b ≥ 10)),
   (5,  fun f _ => decide (f ≥ 20))]

/-- Modelled from the spec's words: evaluate an ordered rule list,
return the grade of the first matching rule, or the default when none
matches. -/
def firstMatchGrade (rules : List (ℕ × (ℚ → ℚ → Bool))) (dflt : ℕ) (f b : ℚ) : ℕ :=
  match rules with
  | [] => dflt
  | (g, p) :: rest => if p f b then g else firstMatchGrade rest dflt f b

/-- A test image on which the whole pipeline succeeds: one external
contour with bounding box `(0,0,100,100)`, and inside the crop two
contours whose second-largest has bounding box `(10,10,80,80)`. -/
def imgOk : Image :=
  { borderContours := [⟨9999, ⟨0, 0, 100, 100⟩⟩]
    artworkContours := fun _ => [⟨5000, ⟨0, 0, 100, 100⟩⟩, ⟨2000, ⟨10, 10, 80, 80⟩⟩] }

/-- A test image yielding no contours at all. -/
def imgEmpty : Image :=
  { borderContours := [], artworkContours := fun _ => [] }

/-- The outer rectangle the pipeline detects on `imgOk`. -/
def testOuter : Rect := ⟨0, 0, 100, 100⟩

/-- The artwork rectangle the pipeline detects on `imgOk`. -/
def testInner : Rect := ⟨10, 10, 80, 80⟩

/-- The value `analyze_centering` returns on `(imgOk, imgOk)`. -/
def testResult : JValue :=
  buildResult testOuter testInner (compute_border_thickness testOuter testInner)
    (compute_psa_centering_ratio_from_borders
      (compute_border_thickness testOuter testInner)).2
    (compute_psa_centering_ratio_from_borders
      (compute_border_thickness testOuter testInner)).1
    testOuter testInner (compute_border_thickness testOuter testInner)
    (compute_psa_centering_ratio_from_borders
      (compute_border_thickness testOuter testInner)).2
    (compute_psa_centering_ratio_from_borders
      (compute_border_thickness testOuter testInner)).1
    (map_psa_centering_grade
      (compute_psa_centering_ratio_from_borders
        (compute_border_thickness testOuter testInner)).1
      (compute_psa_centering_ratio_from_borders
        (compute_border_thickness testOuter testInner)).1)

/-- C4: for all real inputs with `a + b ≤ 0` (including `a = b = 0`),
`compute_psa_axis_ratio` returns 0; the degenerate zero-sum case takes
the early-return branch, so no division (and no error) occurs. -/
theorem axis_ratio_zero_on_nonpositive_sum (a b : ℚ) (h : a + b ≤ 0) :
    compute_psa_axis_ratio a b = 0 := by
  simp [compute_psa_axis_ratio, h]

theorem axis_ratio_zero_on_nonpositive_sum_witness :
    (0 : ℚ) + 0 ≤ 0 ∧ compute_psa_axis_ratio 0 0 = 0 :=
  ⟨by norm_num, axis_ratio_zero_on_nonpositive_sum 0 0 (by norm_num)⟩

/-- C7: `compute_psa_axis_ratio` is symmetric in its two arguments. -/
theorem axis_ratio_symmetric (a b : ℚ) :
    compute_psa_axis_ratio a b = compute_psa_axis_ratio b a := by
  simp only [compute_psa_axis_ratio, add_comm b a, min_comm b a]

/-- C8: for non-negative inputs with positive sum the axis ratio equals
`100 * min(a,b) / (a+b)` and lies in `[0, 50]`; it is `50` at
`a = b = 50`; and for negative inputs the value can leave that range
(witnessed by a negative output), since nothing clamps it. -/
theorem axis_ratio_bounds (a b : ℚ) (ha : 0 ≤ a) (hb : 0 ≤ b)
    (hab : 0 < a + b) :
    compute_psa_axis_ratio a b = 100 * min a b / (a + b) ∧
    0 ≤ compute_psa_axis_ratio a b ∧
    compute_psa_axis_ratio a b ≤ 50 ∧
    compute_psa_axis_ratio 50 50 = 50 ∧
    ∃ x y : ℚ, x < 0 ∧ compute_psa_axis_ratio x y < 0 := by
  have hne : ¬(a + b ≤ 0) := not_le.mpr hab
  have hmin : 0 ≤ min a b := le_min ha hb
  refine ⟨?_, ?_, ?_, ?_, ⟨-1, 2, by norm_num, ?_⟩⟩
  · simp only [compute_psa_axis_ratio, if_neg hne]
    rw [div_mul_eq_mul_div, mul_comm]
  · simp only [compute_psa_axis_ratio, if_neg hne]
    positivity
  · simp only [compute_psa_axis_ratio, if_neg hne]
    rw [div_mul_eq_mul_div, div_le_iff₀ hab]
    have h1 := min_le_left a b
    have h2 := min_le_right a b
    linarith
  · norm_num [compute_psa_axis_ratio]
  · norm_num [compute_psa_axis_ratio]

theorem axis_ratio_bounds_witness :
    ((0 : ℚ) ≤ 50 ∧ (0 : ℚ) < 50 + 50) ∧
    (compute_psa_axis_ratio 50 50 = 100 * min 50 50 / (50 + 50) ∧
     0 ≤ compute_psa_axis_ratio 50 50 ∧
     compute_psa_axis_ratio 50 50 ≤ 50 ∧
     compute_psa_axis_ratio 50 50 = 50 ∧
     ∃ x y : ℚ, x < 0 ∧ compute_psa_axis_ratio x y < 0) :=
  ⟨⟨by norm_num, by norm_num⟩,
   axis_ratio_bounds 50 50 (by norm_num) (by norm_num) (by norm_num)⟩

/-- C5: `compute_border_thickness` is exactly the four stated subtraction
formulae; it validates nothing, so negative gaps pass through unchanged
(illustrated on an inner rectangle sticking out of the outer one), and it
is a total function. -/
theorem border_thickness_formulae (outer inner : Rect) :
    compute_border_thickness outer inner =
      { left := (inner.x : ℚ) - (outer.x : ℚ),
        top := (inner.y : ℚ) - (outer.y : ℚ),
        right := ((outer.x : ℚ) + (outer.w : ℚ)) - ((inner.x : ℚ) + (inner.w : ℚ)),
        bottom := ((outer.y : ℚ) + (outer.h : ℚ)) - ((inner.y : ℚ) + (inner.h : ℚ)) } ∧
    compute_border_thickness ⟨0, 0, 10, 10⟩ ⟨-3, -4, 20, 20⟩ =
      { left := -3, right := -7, top := -4, bottom := -6 } := by
  constructor
  · simp only [compute_border_thickness, Borders.mk.injEq]
    refine ⟨?_, ?_, ?_, ?_⟩ <;> push_cast <;> ring
  · norm_num [compute_border_thickness, Borders.mk.injEq]

/-- C3: `compute_psa_centering_ratio_from_borders` returns the horizontal
axis ratio of (left, right), the vertical axis ratio of (top, bottom),
and their minimum as the limiting ratio, which is also the first
component of the returned pair; on gaps (55, 45, 60, 40) this gives
45, 40 and 40. -/
theorem centering_ratio_from_borders_spec (borders : Borders) :
    compute_psa_centering_ratio_from_borders borders =
      (min (compute_psa_axis_ratio borders.left borders.right)
           (compute_psa_axis_ratio borders.top borders.bottom),
       { horizontal_ratio_percent :=
           compute_psa_axis_ratio borders.left borders.right,
         vertical_ratio_percent :=
           compute_psa_axis_ratio borders.top borders.bottom,
         limiting_ratio_percent :=
           min (compute_psa_axis_ratio borders.left borders.right)
               (compute_psa_axis_ratio borders.top borders.bottom) }) ∧
    compute_psa_centering_ratio_from_borders
        { left := 55, right := 45, top := 60, bottom := 40 } =
      (40, { horizontal_ratio_percent := 45,
             vertical_ratio_percent := 40,
             limiting_ratio_percent := 40 }) := by
  constructor
  · rfl
  · norm_num [compute_psa_centering_ratio_from_borders, compute_psa_axis_ratio,
      Prod.ext_iff, RatioDetails.mk.injEq]

/-- C1: the grade mapper is exactly the first-match evaluation of the
descending rule list 10, 9, 8, 7, 6, 5 with default 4; its value is
always one of 4..10; and the three scenario inputs give 10, 5 and 4. -/
theorem psa_grade_rule_order_and_range :
    (∀ f b : ℚ,
        map_psa_centering_grade f b = firstMatchGrade psaGradeRules 4 f b) ∧
    (∀ f b : ℚ,
        map_psa_centering_grade f b ∈ ([4, 5, 6, 7, 8, 9, 10] : List ℕ)) ∧
    map_psa_centering_grade 46 26 = 10 ∧
    map_psa_centering_grade 41 5 = 5 ∧
    map_psa_centering_grade 10 50 = 4 := by
  refine ⟨?_, ?_, ?_, ?_, ?_⟩
  · intro f b
    simp only [map_psa_centering_grade, firstMatchGrade, psaGradeRules,
      Bool.and_eq_true, decide_eq_true_eq]
  · intro f b
    unfold map_psa_centering_grade
    split_ifs <;> simp
  · norm_num [map_psa_centering_grade]
  · norm_num [map_psa_centering_grade]
  · norm_num [map_psa_centering_grade]

/-- Cases of the grade mapper: its value together with the guard that
produced it. -/
lemma map_grade_cases (f b : ℚ) :
    (map_psa_centering_grade f b = 10 ∧ f ≥ 45 ∧ b ≥ 25) ∨
    (map_psa_centering_grade f b = 9 ∧ f ≥ 40 ∧ b ≥ 20) ∨
    (map_psa_centering_grade f b = 8 ∧ f ≥ 35 ∧ b ≥ 15) ∨
    (map_psa_centering_grade f b = 7 ∧ f ≥ 30 ∧ b ≥ 10) ∨
    (map_psa_centering_grade f b = 6 ∧ f ≥ 25 ∧ b ≥ 10) ∨
    (map_psa_centering_grade f b = 5 ∧ f ≥ 20) ∨
    map_psa_centering_grade f b = 4 := by
  unfold map_psa_centering_grade
  split_ifs with h1 h2 h3 h4 h5 h6
  · exact Or.inl ⟨rfl, h1⟩
  · exact Or.inr (Or.inl ⟨rfl, h2⟩)
  · exact Or.inr (Or.inr (Or.inl ⟨rfl, h3⟩))
  · exact Or.inr (Or.inr (Or.inr (Or.inl ⟨rfl, h4⟩)))
  · exact Or.inr (Or.inr (Or.inr (Or.inr (Or.inl ⟨rfl, h5⟩))))
  · exact Or.inr (Or.inr (Or.inr (Or.inr (Or.inr (Or.inl ⟨rfl, h6⟩)))))
  · exact Or.inr (Or.inr (Or.inr (Or.inr (Or.inr (Or.inr rfl)))))

/-- The grade is at least 4 on all inputs. -/
lemma map_grade_ge_four (f b : ℚ) : 4 ≤ map_psa_centering_grade f b := by
  unfold map_psa_centering_grade
  split_ifs <;> norm_num

/-- The grade is at least 10 when the grade-10 guard holds. -/
lemma map_grade_ge_ten (f b : ℚ) (hf : 45 ≤ f) (hb : 25 ≤ b) :
    10 ≤ map_psa_centering_grade f b := by
  unfold map_psa_centering_grade
  rw [if_pos ⟨hf, hb⟩]

/-- The grade is at least 9 when the grade-9 guard holds. -/
lemma map_grade_ge_nine (f b : ℚ) (hf : 40 ≤ f) (hb : 20 ≤ b) :
    9 ≤ map_psa_centering_grade f b := by
  unfold map_psa_centering_grade
  split_ifs with h1 h2 <;> first | exact absurd ⟨hf, hb⟩ h2 | norm_num

/-- The grade is at least 8 when the grade-8 guard holds. -/
lemma map_grade_ge_eight (f b : ℚ) (hf : 35 ≤ f) (hb : 15 ≤ b) :
    8 ≤ map_psa_centering_grade f b := by
  unfold map_psa_centering_grade
  split_ifs with h1 h2 h3 <;> first | exact absurd ⟨hf, hb⟩ h3 | norm_num

/-- The grade is at least 7 when the grade-7 guard holds. -/
lemma map_grade_ge_seven (f b : ℚ) (hf : 30 ≤ f) (hb : 10 ≤ b) :
    7 ≤ map_psa_centering_grade f b := by
  unfold map_psa_centering_grade
  split_ifs with h1 h2 h3 h4 <;> first | exact absurd ⟨hf, hb⟩ h4 | norm_num

/-- The grade is at least 6 when the grade-6 guard holds. -/
lemma map_grade_ge_six (f b : ℚ) (hf : 25 ≤ f) (hb : 10 ≤ b) :
    6 ≤ map_psa_centering_grade f b := by
  unfold map_psa_centering_grade
  split_ifs with h1 h2 h3 h4 h5 <;>
    first | exact absurd ⟨hf, hb⟩ h5 | norm_num

/-- The grade is at least 5 when the grade-5 guard holds. -/
lemma map_grade_ge_five (f b : ℚ) (hf : 20 ≤ f) :
    5 ≤ map_psa_centering_grade f b := by
  unfold map_psa_centering_grade
  split_ifs with h1 h2 h3 h4 h5 h6 <;>
    first | exact absurd hf h6 | norm_num

/-- C6: the grade mapper never decreases when either input grows; stated
jointly, so both single-argument monotonicities are the special cases
`b1 = b2` and `f1 = f2`. -/
theorem grade_mapper_monotone (f1 f2 b1 b2 : ℚ) (hf : f1 ≤ f2)
    (hb : b1 ≤ b2) :
    map_psa_centering_grade f1 b1 ≤ map_psa_centering_grade f2 b2 := by
  rcases map_grade_cases f1 b1 with
    ⟨h, hf1, hb1⟩ | ⟨h, hf1, hb1⟩ | ⟨h, hf1, hb1⟩ | ⟨h, hf1, hb1⟩ |
    ⟨h, hf1, hb1⟩ | ⟨h, hf1⟩ | h <;> rw [h]
  · exact map_grade_ge_ten f2 b2 (le_trans hf1 hf) (le_trans hb1 hb)
  · exact map_grade_ge_nine f2 b2 (le_trans hf1 hf) (le_trans hb1 hb)
  · exact map_grade_ge_eight f2 b2 (le_trans hf1 hf) (le_trans hb1 hb)
  · exact map_grade_ge_seven f2 b2 (le_trans hf1 hf) (le_trans hb1 hb)
  · exact map_grade_ge_six f2 b2 (le_trans hf1 hf) (le_trans hb1 hb)
  · exact map_grade_ge_five f2 b2 (le_trans hf1 hf)
  · exact le_trans (by norm_num) (map_grade_ge_four f2 b2)

theorem grade_mapper_monotone_witness :
    ((10 : ℚ) ≤ 46 ∧ (10 : ℚ) ≤ 26) ∧
    map_psa_centering_grade 10 10 ≤ map_psa_centering_grade 46 26 :=
  ⟨⟨by norm_num, by norm_num⟩,
   grade_mapper_monotone 10 46 10 26 (by norm_num) (by norm_num)⟩

/-- C9: the detectors fail instead of returning degenerate results, and
the orchestrator propagates every such failure without a partial result:
zero contours makes `detect_card_border` raise (so it never returns any
rectangle, in particular no zero-area one); fewer than two contours makes
`detect_artwork_rectangle` raise; and each of these failures, on either
side, makes `analyze_centering` return exactly that error. -/
theorem detectors_fail_without_partial_results :
    (∀ img : Image, img.borderContours = [] →
      detect_card_border img =
        .error (.valueError "No contours found — cannot detect card border.")) ∧
    (∀ (img : Image) (r : Rect), img.borderContours = [] →
      detect_card_border img ≠ .ok r) ∧
    (∀ (img : Image) (outer : Rect), (img.artworkContours outer).length < 2 →
      detect_artwork_rectangle img outer =
        .error (.valueError "Not enough contours to detect artwork.")) ∧
    (∀ (fimg : Image) (back : Option Image) (e : CardError),
      detect_card_border fimg = .error e →
      analyze_centering (some fimg) back = .error e) ∧
    (∀ (fimg : Image) (back : Option Image) (fo : Rect) (e : CardError),
      detect_card_border fimg = .ok fo →
      detect_artwork_rectangle fimg fo = .error e →
      analyze_centering (some fimg) back = .error e) ∧
    (∀ (fimg bimg : Image) (fo fi : Rect) (e : CardError),
      detect_card_border fimg = .ok fo →
      detect_artwork_rectangle fimg fo = .ok fi →
      detect_card_border bimg = .error e →
      analyze_centering (some fimg) (some bimg) = .error e) ∧
    (∀ (fimg bimg : Image) (fo fi bo : Rect) (e : CardError),
      detect_card_border fimg = .ok fo →
      detect_artwork_rectangle fimg fo = .ok fi →
      detect_card_border bimg = .ok bo →
      detect_artwork_rectangle bimg bo = .error e →
      analyze_centering (some fimg) (some bimg) = .error e) := by
  refine ⟨?_, ?_, ?_, ?_, ?_, ?_, ?_⟩
  · intro img h
    unfold detect_card_border
    rw [h]
  · intro img r h
    unfold detect_card_border
    rw [h]
    simp
  · intro img outer h
    unfold detect_artwork_rectangle
    simp only [if_pos h]
  · intro fimg back e h
    simp only [analyze_centering, h]
  · intro fimg back fo e h1 h2
    simp only [analyze_centering, h1, h2]
  · intro fimg bimg fo fi e h1 h2 h3
    simp only [analyze_centering, h1, h2, h3]
  · intro fimg bimg fo fi bo e h1 h2 h3 h4
    simp only [analyze_centering, h1, h2, h3, h4]

theorem detectors_fail_without_partial_results_witness :
    imgEmpty.borderContours = [] ∧
    detect_card_border imgEmpty =
      .error (.valueError "No contours found — cannot detect card border.") ∧
    analyze_centering (some imgEmpty) (some imgOk) =
      .error (.valueError "No contours found — cannot detect card border.") :=
  ⟨rfl,
   detectors_fail_without_partial_results.1 imgEmpty rfl,
   detectors_fail_without_partial_results.2.2.2.1 imgEmpty (some imgOk) _
     (detectors_fail_without_partial_results.1 imgEmpty rfl)⟩

/-- Inversion of a successful `analyze_centering` run: the returned value
is the `result` dictionary built from the four detected rectangles. -/
lemma analyze_centering_ok_inv (f b : Option Image) (r : JValue)
    (h : analyze_centering f b = .ok r) :
    ∃ fo fi bo bi : Rect,
      r = buildResult fo fi (compute_border_thickness fo fi)
            (compute_psa_centering_ratio_from_borders
              (compute_border_thickness fo fi)).2
            (compute_psa_centering_ratio_from_borders
              (compute_border_thickness fo fi)).1
            bo bi (compute_border_thickness bo bi)
            (compute_psa_centering_ratio_from_borders
              (compute_border_thickness bo bi)).2
            (compute_psa_centering_ratio_from_borders
              (compute_border_thickness bo bi)).1
            (map_psa_centering_grade
              (compute_psa_centering_ratio_from_borders
                (compute_border_thickness fo fi)).1
              (compute_psa_centering_ratio_from_borders
                (compute_border_thickness bo bi)).1) := by
  cases f with
  | none => simp [analyze_centering] at h
  | some fimg =>
    cases hcb : detect_card_border fimg with
    | error e => simp [analyze_centering, hcb] at h
    | ok fo =>
      cases hca : detect_artwork_rectangle fimg fo with
      | error e => simp [analyze_centering, hcb, hca] at h
      | ok fi =>
        cases b with
        | none => simp [analyze_centering, hcb, hca] at h
        | some bimg =>
          cases hcb2 : detect_card_border bimg with
          | error e => simp [analyze_centering, hcb, hca, hcb2] at h
          | ok bo =>
            cases hca2 : detect_artwork_rectangle bimg bo with
            | error e => simp [analyze_centering, hcb, hca, hcb2, hca2] at h
            | ok bi =>
              refine ⟨fo, fi, bo, bi, ?_⟩
              simp only [analyze_centering, hcb, hca, hcb2, hca2] at h
              exact (Except.ok.inj h).symm



/-- C10: every successful `analyze_centering` result has exactly the
top-level keys `front`, `back`, `summary` and none of `psa_grade`,
`ratio`, `centered`; hence the HTTP handler `analyze`, which reads those
three keys with `.get`, returns `null` for all three response fields,
even though the computed grade is present under `summary.centeringGrade`. -/
theorem result_keys_and_handler_nulls (card_id : String) (f b : Option Image)
    (r : JValue) (h : analyze_centering f b = .ok r) :
    r.keys = ["front", "back", "summary"] ∧
    r.getKey "psa_grade" = none ∧
    r.getKey "ratio" = none ∧
    r.getKey "centered" = none ∧
    (∃ g : ℕ, (r.getD "summary").getKey "centeringGrade" = some (.nat g)) ∧
    analyze card_id f b = .ok (.obj
      [("success", .bool true), ("card_id", .str card_id),
       ("psa_grade", .null), ("ratio", .null), ("centered", .null)]) := by
  obtain ⟨fo, fi, bo, bi, hr⟩ := analyze_centering_ok_inv f b r h
  subst hr
  refine ⟨rfl, rfl, rfl, rfl, ⟨_, rfl⟩, ?_⟩
  simp only [analyze, h]
  rfl

theorem result_keys_and_handler_nulls_witness :
    analyze_centering (some imgOk) (some imgOk) = .ok testResult ∧
    (testResult.keys = ["front", "back", "summary"] ∧
     testResult.getKey "psa_grade" = none ∧
     testResult.getKey "ratio" = none ∧
     testResult.getKey "centered" = none ∧
     (∃ g : ℕ, (testResult.getD "summary").getKey "centeringGrade" =
        some (.nat g)) ∧
     analyze "card-1" (some imgOk) (some imgOk) = .ok (.obj
       [("success", .bool true), ("card_id", .str "card-1"),
        ("psa_grade", .null), ("ratio", .null), ("centered", .null)])) :=
  ⟨rfl, result_keys_and_handler_nulls "card-1" (some imgOk) (some imgOk)
          testResult rfl⟩

/-- C2 as stated is false: on a concrete successful analysis, the result
record contains none of the fields `frontRatioString`, `backRatioString`,
`frontRatioValue`, `backRatioValue` — neither at top level nor in any of
its nested dictionaries. -/
theorem result_lacks_ratio_display_fields_concrete :
    analyze_centering (some imgOk) (some imgOk) = .ok testResult ∧
    testResult.getKey "frontRatioString" = none ∧
    testResult.getKey "backRatioString" = none ∧
    testResult.getKey "frontRatioValue" = none ∧
    testResult.getKey "backRatioValue" = none ∧
    (testResult.getD "summary").getKey "frontRatioString" = none ∧
    (testResult.getD "summary").getKey "backRatioString" = none ∧
    (testResult.getD "summary").getKey "frontRatioValue" = none ∧
    (testResult.getD "summary").getKey "backRatioValue" = none ∧
    (testResult.getD "front").getKey "frontRatioString" = none ∧
    (testResult.getD "back").getKey "backRatioString" = none :=
  ⟨rfl, rfl, rfl, rfl, rfl, rfl, rfl, rfl, rfl, rfl, rfl⟩

/-- C2 amended: the orchestrator derives no ratio-label or ratio-fraction
display fields at all.  Every dictionary of a successful result has
exactly the keys written in the source's `result` literal, and the four
claimed field names occur in none of them. -/
theorem result_no_ratio_display_fields (f b : Option Image) (r : JValue)
    (h : analyze_centering f b = .ok r) :
    r.keys = ["front", "back", "summary"] ∧
    (r.getD "front").keys =
      ["outer_border", "artwork_rectangle", "borders", "ratios",
       "psa_centering_ratio"] ∧
    (r.getD "back").keys =
      ["outer_border", "artwork_rectangle", "borders", "ratios",
       "psa_centering_ratio"] ∧
    (r.getD "summary").keys =
      ["frontCenteringRatio", "backCenteringRatio", "centeringGrade"] ∧
    ((r.getD "front").getD "borders").keys =
      ["left", "right", "top", "bottom"] ∧
    ((r.getD "front").getD "ratios").keys =
      ["horizontal_ratio_percent", "vertical_ratio_percent",
       "limiting_ratio_percent"] ∧
    ((r.getD "back").getD "borders").keys =
      ["left", "right", "top", "bottom"] ∧
    ((r.getD "back").getD "ratios").keys =
      ["horizontal_ratio_percent", "vertical_ratio_percent",
       "limiting_ratio_percent"] ∧
    ∀ k ∈ (["frontRatioString", "backRatioString", "frontRatioValue",
            "backRatioValue"] : List String),
      k ∉ r.keys ∧ k ∉ (r.getD "front").keys ∧ k ∉ (r.getD "back").keys ∧
      k ∉ (r.getD "summary").keys ∧
      k ∉ ((r.getD "front").getD "borders").keys ∧
      k ∉ ((r.getD "front").getD "ratios").keys ∧
      k ∉ ((r.getD "back").getD "borders").keys ∧
      k ∉ ((r.getD "back").getD "ratios").keys := by
  obtain ⟨fo, fi, bo, bi, hr⟩ := analyze_centering_ok_inv f b r h
  subst hr
  refine ⟨rfl, rfl, rfl, rfl, rfl, rfl, rfl, rfl, ?_⟩
  exact (by decide :
    ∀ k ∈ (["frontRatioString", "backRatioString", "frontRatioValue",
            "backRatioValue"] : List String),
      k ∉ (["front", "back", "summary"] : List String) ∧
      k ∉ (["outer_border", "artwork_rectangle", "borders", "ratios",
            "psa_centering_ratio"] : List String) ∧
      k ∉ (["outer_border", "artwork_rectangle", "borders", "ratios",
            "psa_centering_ratio"] : List String) ∧
      k ∉ (["frontCenteringRatio", "backCenteringRatio",
            "centeringGrade"] : List String) ∧
      k ∉ (["left", "right", "top", "bottom"] : List String) ∧
      k ∉ (["horizontal_ratio_percent", "vertical_ratio_percent",
            "limiting_ratio_percent"] : List String) ∧
      k ∉ (["left", "right", "top", "bottom"] : List String) ∧
      k ∉ (["horizontal_ratio_percent", "vertical_ratio_percent",
            "limiting_ratio_percent"] : List String))

theorem result_no_ratio_display_fields_witness :
    analyze_centering (some imgOk) (some imgOk) = .ok testResult ∧
    (testResult.keys = ["front", "back", "summary"] ∧
     (testResult.getD "front").keys =
       ["outer_border", "artwork_rectangle", "borders", "ratios",
        "psa_centering_ratio"] ∧
     (testResult.getD "back").keys =
       ["outer_border", "artwork_rectangle", "borders", "ratios",
        "psa_centering_ratio"] ∧
     (testResult.getD "summary").keys =
       ["frontCenteringRatio", "backCenteringRatio", "centeringGrade"] ∧
     ((testResult.getD "front").getD "borders").keys =
       ["left", "right", "top", "bottom"] ∧
     ((testResult.getD "front").getD "ratios").keys =
       ["horizontal_ratio_percent", "vertical_ratio_percent",
        "limiting_ratio_percent"] ∧
     ((testResult.getD "back").getD "borders").keys =
       ["left", "right", "top", "bottom"] ∧
     ((testResult.getD "back").getD "ratios").keys =
       ["horizontal_ratio_percent", "vertical_ratio_percent",
        "limiting_ratio_percent"] ∧
     ∀ k ∈ (["frontRatioString", "backRatioString", "frontRatioValue",
             "backRatioValue"] : List String),
       k ∉ testResult.keys ∧ k ∉ (testResult.getD "front").keys ∧
       k ∉ (testResult.getD "back").keys ∧
       k ∉ (testResult.getD "summary").keys ∧
       k ∉ ((testResult.getD "front").getD "borders").keys ∧
       k ∉ ((testResult.getD "front").getD "ratios").keys ∧
       k ∉ ((testResult.getD "back").getD "borders").keys ∧
       k ∉ ((testResult.getD "back").getD "ratios").keys) :=
  ⟨rfl, result_no_ratio_display_fields (some imgOk) (some imgOk)
          testResult rfl⟩
